import Mathlib

/-!
Verification of the swim FIT-file summary logic.

The definitions below are a shallow embedding of the Python sources
`fit_parser.py` and `report_generator.py`: numeric values are modelled as
rationals, Python `None`-able values as `Option`, and the string-level pace
formatting/parsing is modelled character-by-character (Python's
`str.split(':')` and `int(...)` become structural functions on `List Char`).
-/

/-- Python `f"{n:02d}"`: zero-pad an integer to width 2. -/
def pad2 (n : ℤ) : String :=
  if 0 ≤ n ∧ n < 10 then "0" ++ toString n else toString n

/-- `FITParser._format_time`: format seconds into `H:MM:SS` or `MM:SS`.
`hours = int(seconds // 3600)`, `minutes = int((seconds % 3600) // 60)`,
`secs = int(seconds % 60)`; Python `//`/`%` are floor-based, and `int` of the
(nonnegative) remainder truncates, i.e. floors. -/
def formatTime (s : ℚ) : String :=
  let hours : ℤ := ⌊s / 3600⌋
  let minutes : ℤ := ⌊(s - 3600 * (hours : ℚ)) / 60⌋
  let secs : ℤ := ⌊s - 60 * ((⌊s / 60⌋ : ℤ) : ℚ)⌋
  if 0 < hours then
    toString hours ++ ":" ++ pad2 minutes ++ ":" ++ pad2 secs
  else
    pad2 minutes ++ ":" ++ pad2 secs

/-- Conversion factor used throughout the sources: `1.09361` yards per meter. -/
def yardFactor : ℚ := 1.09361

/-- `FITParser._calculate_pace`: pace per 100 m from speed in m/s,
`None` when the speed is zero. -/
def calculatePace (speed_mps : ℚ) : Option String :=
  if speed_mps = 0 then none else some (formatTime (100 / speed_mps))

/-- `FITParser._calculate_pace_per_100yd`: pace per 100 yd from speed in m/s,
`None` when the speed is zero. -/
def calculatePacePer100yd (speed_mps : ℚ) : Option String :=
  if speed_mps = 0 then none
  else some (formatTime (100 / (speed_mps * yardFactor)))

/-- Pool-length classification from `FITParser._extract_session_data`
(`pool_length` branch): returns the displayed `pool_length_yd` and the
`is_yard_pool` flag.  The yard candidates are checked in dictionary order
22.86, 45.72, 27.43; on no match the yard display stays `m * 1.09361` and
both meter branches set the flag to `false`. -/
def classifyPool (pool_length_m : ℚ) : ℚ × Bool :=
  if |pool_length_m - 22.86| < 0.5 then (25, true)
  else if |pool_length_m - 45.72| < 0.5 then (50, true)
  else if |pool_length_m - 27.43| < 0.5 then (30, true)
  else (pool_length_m * yardFactor, false)

/-- Python `str.split(':')` on the character list of a string: accumulator
`acc` holds the (reversed) characters of the current piece. -/
def splitColonAux : List Char → List Char → List (List Char)
  | [], acc => [acc.reverse]
  | c :: cs, acc =>
      if c = ':' then acc.reverse :: splitColonAux cs []
      else splitColonAux cs (c :: acc)

/-- Python `int(...)` digit-run helper: value of a nonempty all-digit list. -/
def parseDigitsAux : List Char → ℕ → Option ℕ
  | [], n => some n
  | c :: cs, n =>
      if c.isDigit then parseDigitsAux cs (n * 10 + (c.toNat - 48)) else none

/-- Python `int(...)` on an unsigned digit string; `none` when empty or on a
non-digit character (Python raises `ValueError`, which the caller catches). -/
def parseDigits (l : List Char) : Option ℕ :=
  match l with
  | [] => none
  | _ => parseDigitsAux l 0

/-- Python `int(...)` on a character list, with optional sign. -/
def parseIntL : List Char → Option ℤ
  | '-' :: cs => (parseDigits cs).map (fun n => -(n : ℤ))
  | '+' :: cs => (parseDigits cs).map (fun n => (n : ℤ))
  | l => (parseDigits l).map (fun n => (n : ℤ))

/-- The pace-string re-parsing step of `FITParser._generate_summary`
(lines 347-380): `parts = pace_str.split(':')`; only when there are exactly
two parts, `int(parts[0]) * 60 + int(parts[1])`; any parse failure is
swallowed and the lap is skipped. -/
def parsePaceMMSS (s : String) : Option ℤ :=
  match splitColonAux s.data [] with
  | [a, b] =>
      match parseIntL a, parseIntL b with
      | some m, some sec => some (m * 60 + sec)
      | _, _ => none
  | _ => none

/-- Python `round` to the nearest integer, ties to even. -/
def pyRoundInt (q : ℚ) : ℤ :=
  let f := ⌊q⌋
  if q - (f : ℚ) < 1 / 2 then f
  else if (1 : ℚ) / 2 < q - (f : ℚ) then f + 1
  else if f % 2 = 0 then f else f + 1

/-- Python `round(x, 1)`: round to one decimal place, ties to even. -/
def pyRound1 (q : ℚ) : ℚ := (pyRoundInt (q * 10) : ℚ) / 10

/-- `LengthMetrics`, the output shape of `FITParser._extract_length_data`:
missing numeric fields read back as `0` via `.get(..., 0)`, missing tags as
absent. -/
structure Length where
  elapsed_time_s : ℚ := 0
  timer_time_s : ℚ := 0
  distance_m : ℚ := 0
  stroke_type : Option String := none
  length_type : Option String := none
  is_active : Bool := false

/-- `LapMetrics`, the output shape of `FITParser._extract_lap_data`, restricted
to the fields `_generate_summary` reads. -/
structure Lap where
  elapsed_time_s : ℚ := 0
  distance_m : ℚ := 0
  avg_speed_mps : Option ℚ := none
  pace_per_100m : Option String := none
  pace_per_100yd : Option String := none
  strokes : ℕ := 0
  stroke_type : Option String := none

/-- A `record` track point; `_generate_summary` only uses the count. -/
structure TrackPoint where
  distance_m : ℚ := 0
  speed_mps : Option ℚ := none
  heart_rate : Option ℤ := none

/-- `SessionMetrics`, the output shape of `FITParser._extract_session_data`,
restricted to the fields `_generate_summary` reads.  A field that is absent
from the session frame reads back as the `.get` default, which the defaults
below mirror; `avg_speed_mps = none` models the `avg_speed` field being
absent (so the derived pace keys are absent too). -/
structure Session where
  total_distance_m : ℚ := 0
  total_distance_yd : ℚ := 0
  total_elapsed_time_s : ℚ := 0
  total_timer_time_s : ℚ := 0
  num_active_lengths : ℕ := 0
  avg_speed_mps : Option ℚ := none
  total_strokes : ℕ := 0
  pool_length_m : ℚ := 0
  pool_length_yd : ℚ := 0
  is_yard_pool : Bool := false
  num_lengths : ℕ := 0
  num_laps_session : ℕ := 0
  active_time_formatted : Option String := none
  total_time_formatted : Option String := none

/-- `session.get('avg_pace_per_100m')`: absent when the `avg_speed` field was
absent, else `_calculate_pace(avg_speed_mps)` (itself `None` on zero speed). -/
def Session.avgPace100m (s : Session) : Option String :=
  s.avg_speed_mps.bind calculatePace

/-- `session.get('avg_pace_per_100yd')`: as `Session.avgPace100m` but per
100 yd. -/
def Session.avgPace100yd (s : Session) : Option String :=
  s.avg_speed_mps.bind calculatePacePer100yd

/-- The filter of `_generate_summary` line 317:
`l.get('is_active', False) or l.get('length_type') == 'active'`. -/
def isActiveLen (l : Length) : Bool :=
  l.is_active || l.length_type == some "active"

/-- Sum of `length.get('elapsed_time_s', 0)` over a list of lengths. -/
def sumElapsed (ls : List Length) : ℚ :=
  (ls.map Length.elapsed_time_s).sum

/-- `_generate_summary` lines 313-330: the active-time value before the
`total_timer_time` fallback.  Inside `if lengths:`, sum the elapsed times of
the active-tagged lengths if any exist, else of the first
`num_active_lengths` lengths when that session value is positive. -/
def activeTimeRaw (lengths : List Length) (numActive : ℕ) : ℚ :=
  if lengths.isEmpty then 0
  else
    let act := lengths.filter isActiveLen
    if ¬act.isEmpty then sumElapsed act
    else if 0 < numActive then sumElapsed (lengths.take numActive)
    else 0

/-- `_generate_summary` lines 332-334: fall back to the session
`total_timer_time_s` when the length-derived active time is still `0`. -/
def activeTimeS (lengths : List Length) (numActive : ℕ) (timerTime : ℚ) : ℚ :=
  let r := activeTimeRaw lengths numActive
  if r = 0 then timerTime else r

/-- `_generate_summary` line 337: the swim time used for pace, falling back
to `total_elapsed_time_s` when the active time is not positive. -/
def swimTimeS (lengths : List Length) (numActive : ℕ) (timerTime totalTime : ℚ) : ℚ :=
  let a := activeTimeS lengths numActive timerTime
  if 0 < a then a else totalTime

/-- `_generate_summary` lines 344-380: lap-pace averaging for the classified
unit.  Takes the current `(avg_pace_100m, avg_pace_100yd)` pair and updates
the unit-appropriate component with the formatted arithmetic mean of the lap
pace strings that are present and parse as `MM:SS`; no update when no lap
pace parses or no laps exist. -/
def lapAveragedPaces (is_yard_pool : Bool) (laps : List Lap)
    (m yd : Option String) : Option String × Option String :=
  if laps.isEmpty then (m, yd)
  else if is_yard_pool then
    let ps := laps.filterMap (fun lap => lap.pace_per_100yd.bind parsePaceMMSS)
    if ps.isEmpty then (m, yd)
    else (m, some (formatTime (((ps.sum : ℤ) : ℚ) / (ps.length : ℚ))))
  else
    let ps := laps.filterMap (fun lap => lap.pace_per_100m.bind parsePaceMMSS)
    if ps.isEmpty then (m, yd)
    else (some (formatTime (((ps.sum : ℤ) : ℚ) / (ps.length : ℚ))), yd)

/-- `_generate_summary` lines 383-387: when there is still no per-100m pace
and both distance and swim time are positive, derive the pace from
`total_distance_m / swim_time_s` (the yard variant only when it too is
still absent). -/
def paceDistanceFallback (total_distance_m swim_time_s : ℚ)
    (m yd : Option String) : Option String × Option String :=
  if m = none ∧ 0 < total_distance_m ∧ 0 < swim_time_s then
    let avg_speed_mps := total_distance_m / swim_time_s
    (calculatePace avg_speed_mps,
      if yd = none then calculatePacePer100yd avg_speed_mps else yd)
  else (m, yd)

/-- `_generate_summary` lines 404-406: rest time, `0` unless the active time
is positive and strictly below the total elapsed time. -/
def restTimeS (total_time_s active_time_s : ℚ) : ℚ :=
  if 0 < active_time_s ∧ active_time_s < total_time_s then
    total_time_s - active_time_s
  else 0

/-- `_generate_summary` line 400: the reported rest-time string,
`_format_time(rest_time_s)` when positive, else `'00:00'`. -/
def restTimeStr (total_time_s active_time_s : ℚ) : String :=
  if 0 < restTimeS total_time_s active_time_s then
    formatTime (restTimeS total_time_s active_time_s)
  else "00:00"

/-- The summary mapping built by `FITParser._generate_summary`.  Fields that
Python can leave as `None` or omit are `Option`-valued; `avg_pace` can be
`None` (the yard branch of its conditional has no `'N/A'` default). -/
structure Summary where
  total_distance_m : ℚ
  total_distance_yd : ℚ
  total_time : String
  active_time : String
  rest_time : String
  total_strokes : ℕ
  num_laps : ℕ
  num_laps_actual : ℕ
  num_records : ℕ
  avg_pace : Option String
  avg_pace_100m : String
  avg_pace_100yd : String
  pool_length_m : ℚ
  pool_length_yd : ℚ
  pool_length : ℚ
  is_yard_pool : Bool
  num_lengths : ℕ
  num_active_lengths : ℕ
  strokes_per_length : Option ℚ
  avg_strokes_per_lap : Option ℚ

/-- `FITParser._generate_summary`, composed from the pieces above. -/
def generateSummary (session : Session) (laps : List Lap)
    (lengths : List Length) (records : List TrackPoint) : Summary :=
  let is_yard_pool := session.is_yard_pool
  let total_distance_m := session.total_distance_m
  let total_time_s := session.total_elapsed_time_s
  let active_time_s := activeTimeS lengths session.num_active_lengths session.total_timer_time_s
  let swim_time_s := swimTimeS lengths session.num_active_lengths
      session.total_timer_time_s total_time_s
  let p1 := lapAveragedPaces is_yard_pool laps session.avgPace100m session.avgPace100yd
  let p2 := paceDistanceFallback total_distance_m swim_time_s p1.1 p1.2
  let avg_pace_100m := p2.1
  let avg_pace_100yd := p2.2
  let num_active_lengths :=
    if session.num_active_lengths = 0 then
      (if lengths.isEmpty then laps.length else lengths.length)
    else session.num_active_lengths
  { total_distance_m := total_distance_m
    total_distance_yd := session.total_distance_yd
    total_time := session.total_time_formatted.getD "00:00"
    active_time :=
      if 0 < active_time_s then formatTime active_time_s
      else session.active_time_formatted.getD "00:00"
    rest_time := restTimeStr total_time_s active_time_s
    total_strokes := session.total_strokes
    num_laps := num_active_lengths
    num_laps_actual := laps.length
    num_records := records.length
    avg_pace :=
      if is_yard_pool then avg_pace_100yd
      else some (avg_pace_100m.getD "N/A")
    avg_pace_100m := avg_pace_100m.getD "N/A"
    avg_pace_100yd := avg_pace_100yd.getD "N/A"
    pool_length_m := session.pool_length_m
    pool_length_yd := session.pool_length_yd
    pool_length := if is_yard_pool then session.pool_length_yd else session.pool_length_m
    is_yard_pool := is_yard_pool
    num_lengths := session.num_lengths
    num_active_lengths := num_active_lengths
    strokes_per_length :=
      if 0 < session.num_lengths ∧ 0 < session.total_strokes then
        some (pyRound1 ((session.total_strokes : ℚ) / (session.num_lengths : ℚ)))
      else none
    avg_strokes_per_lap :=
      if ¬laps.isEmpty ∧ 0 < session.total_strokes then
        some (pyRound1 ((session.total_strokes : ℚ) / (laps.length : ℚ)))
      else none }

/-- `ReportGenerator._seconds_to_pace`: always `MM:SS`
(`minutes = int(seconds // 60)`, `secs = int(seconds % 60)`). -/
def secondsToPace (s : ℚ) : String :=
  pad2 ⌊s / 60⌋ ++ ":" ++ pad2 ⌊s - 60 * ((⌊s / 60⌋ : ℤ) : ℚ)⌋

/-- `ReportGenerator._calculate_pace_from_speed`. -/
def calculatePaceFromSpeed (speed_mps : ℚ) : Option String :=
  if speed_mps = 0 then none else some (secondsToPace (100 / speed_mps))

/-- `ReportGenerator._calculate_pace_from_speed_yd`. -/
def calculatePaceFromSpeedYd (speed_mps : ℚ) : Option String :=
  if speed_mps = 0 then none
  else some (secondsToPace (100 / (speed_mps * yardFactor)))

/-- The summary fields of one workout that
`ReportGenerator._generate_cumulative_data` reads; the pace fields of a
parser-produced summary are always strings (`'N/A'` in the absent case). -/
structure WSummary where
  total_distance_m : ℚ := 0
  total_distance_yd : ℚ := 0
  total_strokes : ℕ := 0
  num_laps : ℕ := 0
  avg_pace_100m : String := "N/A"
  avg_pace_100yd : String := "N/A"
  is_yard_pool : Bool := false

/-- One parsed workout as `_generate_cumulative_data` sees it: its summary
plus the session `total_elapsed_time_s`. -/
structure Workout where
  summary : WSummary := {}
  total_elapsed_time_s : ℚ := 0

/-- Python truthiness test `if p and p != 'N/A'` for a pace string. -/
def truthyPace (p : String) : Bool :=
  decide (p ≠ "") && decide (p ≠ "N/A")

/-- The pace-collection loop of `_generate_cumulative_data` lines 203-210:
each workout whose pace passes `truthyPace` overwrites the accumulator, so
the last good pace wins (the loop has no `break`). -/
def collectPace (get : Workout → String) (ws : List Workout) : Option String :=
  ws.foldl (fun acc w => if truthyPace (get w) then some (get w) else acc) none

/-- The cumulative mapping built by `ReportGenerator._generate_cumulative_data`. -/
structure Cumulative where
  total_distance_m : ℚ
  total_distance_yd : ℚ
  total_time : String
  total_time_s : ℚ
  total_strokes : ℕ
  total_laps : ℕ
  num_workouts : ℕ
  avg_pace_100m : Option String
  avg_pace_100yd : Option String
  avg_pace : Option String
  is_yard_pool : Bool

/-- The body of `_generate_cumulative_data` once the two-workout guard has
passed.  `self.all_swim_data[0]` exists because the guard passed; the empty
case of the head match is unreachable. -/
def cumulativeCore (ws : List Workout) : Cumulative :=
  let total_distance_m := (ws.map (fun w => w.summary.total_distance_m)).sum
  let total_distance_yd := (ws.map (fun w => w.summary.total_distance_yd)).sum
  let total_time_s := (ws.map (fun w => w.total_elapsed_time_s)).sum
  let total_strokes := (ws.map (fun w => w.summary.total_strokes)).sum
  let total_laps := (ws.map (fun w => w.summary.num_laps)).sum
  let paces :=
    if 0 < total_time_s ∧ 0 < total_distance_m then
      let avg_speed_mps := total_distance_m / total_time_s
      (calculatePaceFromSpeed avg_speed_mps, calculatePaceFromSpeedYd avg_speed_mps)
    else
      (some ((collectPace (fun w => w.summary.avg_pace_100m) ws).getD "N/A"),
       some ((collectPace (fun w => w.summary.avg_pace_100yd) ws).getD "N/A"))
  let is_yard_pool :=
    match ws with
    | [] => false
    | w :: _ => w.summary.is_yard_pool
  { total_distance_m := total_distance_m
    total_distance_yd := total_distance_yd
    total_time := if 0 < total_time_s then secondsToPace total_time_s else "00:00"
    total_time_s := total_time_s
    total_strokes := total_strokes
    total_laps := total_laps
    num_workouts := ws.length
    avg_pace_100m := paces.1
    avg_pace_100yd := paces.2
    avg_pace := if is_yard_pool then paces.2 else paces.1
    is_yard_pool := is_yard_pool }

/-- `ReportGenerator._generate_cumulative_data`: returns the empty mapping
(here `none`) when fewer than two workouts are loaded. -/
def generateCumulativeData (ws : List Workout) : Option Cumulative :=
  if ws.length < 2 then none else some (cumulativeCore ws)

/-- The list of parsed lap paces for the classified unit, as collected by
the loop in `_generate_summary` lines 348-360 / 366-377. -/
def lapPaces (is_yard_pool : Bool) (laps : List Lap) : List ℤ :=
  laps.filterMap (fun lap =>
    (if is_yard_pool then lap.pace_per_100yd else lap.pace_per_100m).bind parsePaceMMSS)

/-- `sum(lap_paces) / len(lap_paces)` as a rational. -/
def meanSeconds (ps : List ℤ) : ℚ :=
  ((ps.sum : ℤ) : ℚ) / (ps.length : ℚ)

/-! ### String-level helper lemmas -/

theorem digitChar_big {n : ℕ} (h : 16 ≤ n) : Nat.digitChar n = '*' := by
  unfold Nat.digitChar
  repeat rw [if_neg (by omega)]

theorem digitChar_ne_colon (n : ℕ) : Nat.digitChar n ≠ ':' := by
  rcases Nat.lt_or_ge n 16 with h | h
  · interval_cases n <;> decide
  · rw [digitChar_big h]; decide

theorem toDigitsCore_ne_colon (fuel n : ℕ) (acc : List Char)
    (hacc : ∀ c ∈ acc, c ≠ ':') :
    ∀ c ∈ Nat.toDigitsCore 10 fuel n acc, c ≠ ':' := by
  induction fuel generalizing n acc with
  | zero => simpa [Nat.toDigitsCore] using hacc
  | succ fuel ih =>
      intro c hc
      simp only [Nat.toDigitsCore] at hc
      by_cases h : n / 10 = 0
      · rw [if_pos h] at hc
        rcases List.mem_cons.mp hc with h1 | h1
        · exact h1 ▸ digitChar_ne_colon _
        · exact hacc c h1
      · rw [if_neg h] at hc
        refine ih (n / 10) (Nat.digitChar (n % 10) :: acc) ?_ c hc
        intro d hd
        rcases List.mem_cons.mp hd with h1 | h1
        · exact h1 ▸ digitChar_ne_colon _
        · exact hacc d h1

theorem natRepr_ne_colon (n : ℕ) : ∀ c ∈ (Nat.repr n).data, c ≠ ':' := by
  intro c hc
  have h0 : (Nat.repr n).data = Nat.toDigitsCore 10 (n + 1) n [] := rfl
  rw [h0] at hc
  exact toDigitsCore_ne_colon (n + 1) n [] (by simp) c hc

theorem toStringInt_ne_colon (k : ℤ) : ∀ c ∈ (toString k).data, c ≠ ':' := by
  intro c hc
  cases k with
  | ofNat m => exact natRepr_ne_colon m c hc
  | negSucc m =>
      have h0 : (toString (Int.negSucc m)).data = '-' :: (Nat.repr (m + 1)).data := rfl
      rw [h0] at hc
      rcases List.mem_cons.mp hc with h1 | h1
      · exact h1 ▸ (by decide)
      · exact natRepr_ne_colon (m + 1) c h1

theorem pad2_ne_colon (n : ℤ) : ∀ c ∈ (pad2 n).data, c ≠ ':' := by
  intro c hc
  unfold pad2 at hc
  split at hc
  · rw [String.data_append] at hc
    rcases List.mem_append.mp hc with h1 | h1
    · have h2 : c ∈ ['0'] := h1
      have h3 : c = '0' := List.mem_singleton.mp h2
      exact h3 ▸ (by decide)
    · exact toStringInt_ne_colon n c h1
  · exact toStringInt_ne_colon n c hc

theorem splitColonAux_no_colon (l : List Char) (h : ∀ c ∈ l, c ≠ ':') :
    ∀ acc, splitColonAux l acc = [acc.reverse ++ l] := by
  induction l with
  | nil => intro acc; simp [splitColonAux]
  | cons c cs ih =>
      intro acc
      have hc : c ≠ ':' := h c (List.mem_cons_self c cs)
      have ih2 := ih (fun d hd => h d (List.mem_cons_of_mem c hd)) (c :: acc)
      simp only [splitColonAux, if_neg hc, List.append_eq] at ih2 ⊢
      rw [ih2]
      simp

theorem splitColonAux_append (l₁ l₂ : List Char) (h : ∀ c ∈ l₁, c ≠ ':') :
    ∀ acc, splitColonAux (l₁ ++ ':' :: l₂) acc =
      (acc.reverse ++ l₁) :: splitColonAux l₂ [] := by
  induction l₁ with
  | nil => intro acc; simp [splitColonAux]
  | cons c cs ih =>
      intro acc
      have hc : c ≠ ':' := h c (List.mem_cons_self c cs)
      have ih2 := ih (fun d hd => h d (List.mem_cons_of_mem c hd)) (c :: acc)
      simp only [List.cons_append, splitColonAux, if_neg hc, List.append_eq] at ih2 ⊢
      rw [ih2]
      simp

theorem parseIntL_pad2_nat : ∀ n : ℕ, n < 60 →
    parseIntL (pad2 (n : ℤ)).data = some (n : ℤ) := by decide

theorem data_colon_join (a b : String) :
    (a ++ ":" ++ b).data = a.data ++ ':' :: b.data := by
  rw [String.data_append, String.data_append]
  simp [show (":" : String).data = [':'] from rfl]

theorem data_colon_join3 (a b c : String) :
    (a ++ ":" ++ b ++ ":" ++ c).data = a.data ++ ':' :: (b.data ++ ':' :: c.data) := by
  rw [String.data_append, String.data_append, String.data_append, String.data_append]
  simp [show (":" : String).data = [':'] from rfl]

theorem parseIntL_pad2 (n : ℤ) (h0 : 0 ≤ n) (h1 : n < 60) :
    parseIntL (pad2 n).data = some n := by
  obtain ⟨a, rfl⟩ : ∃ a : ℕ, n = (a : ℤ) := ⟨n.toNat, (Int.toNat_of_nonneg h0).symm⟩
  exact parseIntL_pad2_nat a (by exact_mod_cast h1)

/-- Parsing a string assembled as `MM:SS` from two in-range components
recovers `60 * minutes + seconds`. -/
theorem parsePace_pad2_pair (m s : ℤ) (hm0 : 0 ≤ m) (hm1 : m < 60)
    (hs0 : 0 ≤ s) (hs1 : s < 60) :
    parsePaceMMSS (pad2 m ++ ":" ++ pad2 s) = some (m * 60 + s) := by
  unfold parsePaceMMSS
  rw [data_colon_join,
    splitColonAux_append (pad2 m).data (pad2 s).data (pad2_ne_colon m) [],
    splitColonAux_no_colon (pad2 s).data (pad2_ne_colon s) []]
  simp [parseIntL_pad2 m hm0 hm1, parseIntL_pad2 s hs0 hs1]

/-- For a value below one hour, `_format_time` takes the `MM:SS` branch with
`minutes = ⌊t / 60⌋` and `secs = ⌊t⌋ - 60 * ⌊t / 60⌋`. -/
theorem formatTime_lt_3600 (t : ℚ) (h0 : 0 ≤ t) (h1 : t < 3600) :
    formatTime t = pad2 ⌊t / 60⌋ ++ ":" ++ pad2 (⌊t⌋ - 60 * ⌊t / 60⌋) := by
  have hh : ⌊t / 3600⌋ = 0 := by
    rw [Int.floor_eq_zero_iff]
    constructor
    · positivity
    · rw [div_lt_one (by norm_num)]; exact h1
  have hmin : (t - 3600 * ((⌊t / 3600⌋ : ℤ) : ℚ)) / 60 = t / 60 := by
    rw [hh]; push_cast; ring_nf
  have hsec : ⌊t - 60 * ((⌊t / 60⌋ : ℤ) : ℚ)⌋ = ⌊t⌋ - 60 * ⌊t / 60⌋ := by
    have : t - 60 * ((⌊t / 60⌋ : ℤ) : ℚ) = t - ((60 * ⌊t / 60⌋ : ℤ) : ℚ) := by
      push_cast; ring
    rw [this, Int.floor_sub_int]
  simp only [formatTime]
  rw [hmin, hsec, hh, if_neg (by norm_num)]

theorem minutes_bounds (t : ℚ) (h0 : 0 ≤ t) (h1 : t < 3600) :
    0 ≤ ⌊t / 60⌋ ∧ ⌊t / 60⌋ < 60 := by
  constructor
  · exact Int.floor_nonneg.mpr (by positivity)
  · rw [Int.floor_lt]
    push_cast
    rw [div_lt_iff (by norm_num : (0:ℚ) < 60)]
    linarith

theorem secs_bounds (t : ℚ) (h0 : 0 ≤ t) :
    0 ≤ ⌊t⌋ - 60 * ⌊t / 60⌋ ∧ ⌊t⌋ - 60 * ⌊t / 60⌋ < 60 := by
  have hle : ((60 * ⌊t / 60⌋ : ℤ) : ℚ) ≤ t := by
    push_cast
    have := Int.floor_le (t / 60)
    nlinarith
  have hlt : t < ((60 * ⌊t / 60⌋ + 60 : ℤ) : ℚ) := by
    push_cast
    have := Int.lt_floor_add_one (t / 60)
    nlinarith
  constructor
  · have := Int.le_floor.mpr hle
    omega
  · have := Int.floor_lt.mpr hlt
    omega

/-- Round trip: for `0 ≤ t < 3600` the `MM:SS` re-parse of `_format_time t`
recovers `⌊t⌋`. -/
theorem parse_formatTime_lt (t : ℚ) (h0 : 0 ≤ t) (h1 : t < 3600) :
    parsePaceMMSS (formatTime t) = some ⌊t⌋ := by
  obtain ⟨hm0, hm1⟩ := minutes_bounds t h0 h1
  obtain ⟨hs0, hs1⟩ := secs_bounds t h0
  rw [formatTime_lt_3600 t h0 h1,
    parsePace_pad2_pair _ _ hm0 hm1 hs0 hs1]
  congr 1
  ring

/-- For `t ≥ 3600` the formatted string has the `H:MM:SS` shape, so the
`MM:SS` re-parse rejects it (three colon-separated parts). -/
theorem parse_formatTime_ge (t : ℚ) (h : 3600 ≤ t) :
    parsePaceMMSS (formatTime t) = none := by
  have hh : 0 < ⌊t / 3600⌋ := by
    have : (1 : ℤ) ≤ ⌊t / 3600⌋ := by
      rw [Int.le_floor]
      rw [le_div_iff (by norm_num : (0:ℚ) < 3600)]
      push_cast
      linarith
    omega
  have hform : formatTime t =
      toString ⌊t / 3600⌋ ++ ":" ++ pad2 ⌊(t - 3600 * ((⌊t / 3600⌋ : ℤ) : ℚ)) / 60⌋ ++
        ":" ++ pad2 ⌊t - 60 * ((⌊t / 60⌋ : ℤ) : ℚ)⌋ := by
    simp only [formatTime]
    rw [if_pos hh]
  rw [hform]
  unfold parsePaceMMSS
  rw [data_colon_join3,
    splitColonAux_append _ _ (toStringInt_ne_colon ⌊t / 3600⌋) [],
    splitColonAux_append _ _ (pad2_ne_colon _) [],
    splitColonAux_no_colon _ (pad2_ne_colon _) []]

/-- Below one second everything floors to zero and the formatted time is the
literal `"00:00"`. -/
theorem formatTime_lt_one (t : ℚ) (h0 : 0 ≤ t) (h1 : t < 1) :
    formatTime t = "00:00" := by
  have hm : ⌊t / 60⌋ = 0 := by
    rw [Int.floor_eq_zero_iff]
    constructor
    · positivity
    · rw [div_lt_one (by norm_num)]; linarith
  have ht : ⌊t⌋ = 0 := by
    rw [Int.floor_eq_zero_iff]
    exact ⟨h0, h1⟩
  rw [formatTime_lt_3600 t h0 (by linarith), hm, ht]
  decide

theorem parse_zeroSring : parsePaceMMSS "00:00" = some 0 := by decide

/-- At or above one second the formatted time is never `"00:00"`. -/
theorem formatTime_ne_zeroString (t : ℚ) (h : 1 ≤ t) :
    formatTime t ≠ "00:00" := by
  intro heq
  rcases lt_or_ge t 3600 with hlt | hge
  · have h1 := parse_formatTime_lt t (by linarith) hlt
    rw [heq, parse_zeroSring] at h1
    have h2 : (0 : ℤ) = ⌊t⌋ := Option.some.inj h1
    have h3 : (1 : ℤ) ≤ ⌊t⌋ := by
      rw [Int.le_floor]; push_cast; exact h
    omega
  · have h1 := parse_formatTime_ge t hge
    rw [heq, parse_zeroSring] at h1
    exact Option.noConfusion h1

/-! ### Claim theorems -/

/-- C3: pool unit classification is total and deterministic over every finite
non-negative `pool_length_m`: within 0.5 m of 22.86 / 45.72 / 27.43 the pool
is a yard pool with displayed length snapped to 25 / 50 / 30 respectively;
otherwise (including near 25.0 and 50.0, and all ambiguous values)
`is_yard_pool` is `false`. -/
theorem pool_classification_total (m : ℚ) :
    (|m - 22.86| < 0.5 → classifyPool m = (25, true)) ∧
    (|m - 45.72| < 0.5 → classifyPool m = (50, true)) ∧
    (|m - 27.43| < 0.5 → classifyPool m = (30, true)) ∧
    (¬(|m - 22.86| < 0.5 ∨ |m - 45.72| < 0.5 ∨ |m - 27.43| < 0.5) →
      (classifyPool m).2 = false) := by
  refine ⟨?_, ?_, ?_, ?_⟩
  · intro h1
    simp only [classifyPool]
    rw [if_pos h1]
  · intro h2
    have h1 : ¬|m - 22.86| < 0.5 := by
      rw [abs_lt] at h2
      rw [not_lt, le_abs]
      left
      linarith
    simp only [classifyPool]
    rw [if_neg h1, if_pos h2]
  · intro h3
    have h1 : ¬|m - 22.86| < 0.5 := by
      rw [abs_lt] at h3
      rw [not_lt, le_abs]
      left
      linarith
    have h2 : ¬|m - 45.72| < 0.5 := by
      rw [abs_lt] at h3
      rw [not_lt, le_abs]
      right
      linarith
    simp only [classifyPool]
    rw [if_neg h1, if_neg h2, if_pos h3]
  · intro h
    push_neg at h
    obtain ⟨h1, h2, h3⟩ := h
    simp only [classifyPool]
    rw [if_neg (not_lt.mpr h1), if_neg (not_lt.mpr h2), if_neg (not_lt.mpr h3)]

/-- Witness for C3 at the concrete pool lengths 22.86 m (25 yd pool) and
25.0 m (meter pool). -/
theorem pool_classification_total_witness :
    classifyPool 22.86 = (25, true) ∧ (classifyPool 25).2 = false :=
  ⟨(pool_classification_total 22.86).1 (by norm_num),
   (pool_classification_total 25).2.2.2 (by rw [abs_lt, abs_lt, abs_lt]; norm_num)⟩

/-- C1: the active-time value follows the Step 2 fallback chain, the first
rule with a positive result winning: with at least one active-tagged length
it is the elapsed-time sum over exactly those lengths, for every session
`num_active_lengths`; with no active-tagged length but a positive
`num_active_lengths` it is the sum over the first `num_active_lengths`
lengths; when the length-derived value is zero it is the session
`total_timer_time_s`; and when even that is zero the swim time used for
pace is `total_elapsed_time_s`. -/
theorem active_time_fallback_chain (lengths : List Length) (numActive : ℕ)
    (timer total : ℚ) :
    (lengths.filter isActiveLen ≠ [] →
      0 < sumElapsed (lengths.filter isActiveLen) →
      activeTimeS lengths numActive timer = sumElapsed (lengths.filter isActiveLen)) ∧
    (lengths.filter isActiveLen = [] → 0 < numActive →
      0 < sumElapsed (lengths.take numActive) →
      activeTimeS lengths numActive timer = sumElapsed (lengths.take numActive)) ∧
    (activeTimeRaw lengths numActive = 0 →
      activeTimeS lengths numActive timer = timer) ∧
    (activeTimeS lengths numActive timer = 0 →
      swimTimeS lengths numActive timer total = total) := by
  refine ⟨?_, ?_, ?_, ?_⟩
  · intro hne hpos
    have hlne : lengths ≠ [] := by
      intro h0
      rw [h0] at hne
      simp at hne
    have hraw : activeTimeRaw lengths numActive = sumElapsed (lengths.filter isActiveLen) := by
      unfold activeTimeRaw
      rw [if_neg (by simpa using hlne)]
      rw [if_pos (by simpa using hne)]
    unfold activeTimeS
    rw [hraw, if_neg (by linarith)]
  · intro hfe hna hpos
    have hlne : lengths ≠ [] := by
      intro h0
      rw [h0] at hpos
      simp [sumElapsed] at hpos
    have hraw : activeTimeRaw lengths numActive = sumElapsed (lengths.take numActive) := by
      unfold activeTimeRaw
      rw [if_neg (by simpa using hlne)]
      rw [if_neg (by simpa using hfe), if_pos hna]
    unfold activeTimeS
    rw [hraw, if_neg (by linarith)]
  · intro hraw
    unfold activeTimeS
    rw [hraw, if_pos rfl]
  · intro hz
    unfold swimTimeS
    rw [hz]
    norm_num

/-- Witness for C1: two active lengths of 30 s and 40 s among three lengths
give an active time of 70 s regardless of `num_active_lengths`, here 5. -/
theorem active_time_fallback_chain_witness :
    activeTimeS [{ elapsed_time_s := 30, is_active := true },
      { elapsed_time_s := 25 }, { elapsed_time_s := 40, is_active := true }] 5 999 = 70 := by
  have h := (active_time_fallback_chain
    [{ elapsed_time_s := 30, is_active := true },
      { elapsed_time_s := 25 }, { elapsed_time_s := 40, is_active := true }] 5 999 0).1
    (by simp [List.filter_cons, isActiveLen])
    (by norm_num [List.filter_cons, isActiveLen, sumElapsed])
  rw [h]
  norm_num [List.filter_cons, isActiveLen, sumElapsed]

/-- C4 counterexample: the chain can produce `active_time_s = 0` (no lengths,
no positive `num_active_lengths`, zero timer time), and then the code reports
rest time `0`, not `max(0, total - active) = total`: at
`total_elapsed_time_s = 100` the claimed value would be `100`. -/
theorem rest_time_max_counterexample :
    activeTimeS [] 0 0 = 0 ∧
    restTimeS 100 (activeTimeS [] 0 0) = 0 ∧
    restTimeS 100 (activeTimeS [] 0 0) ≠ max 0 (100 - activeTimeS [] 0 0) := by
  have h1 : activeTimeS [] 0 0 = 0 := by
    norm_num [activeTimeS, activeTimeRaw]
  refine ⟨h1, ?_, ?_⟩
  · rw [h1]
    norm_num [restTimeS]
  · rw [h1]
    norm_num [restTimeS]

/-- C4 (amended): rest time equals `max(0, total - active)` whenever the
active time is positive, and is `0` when the active time is not positive; it
is never negative; and it is reported as `"00:00"` exactly when it is below
one second (in particular when it is zero, which covers every case with
`active_time_s ≥ total_elapsed_time_s`). -/
theorem rest_time_amended (total active : ℚ) :
    (0 < active → restTimeS total active = max 0 (total - active)) ∧
    (active ≤ 0 → restTimeS total active = 0) ∧
    0 ≤ restTimeS total active ∧
    (restTimeStr total active = "00:00" ↔ restTimeS total active < 1) := by
  have hnonneg : 0 ≤ restTimeS total active := by
    unfold restTimeS
    split_ifs with h
    · linarith [h.2]
    · exact le_refl 0
  refine ⟨?_, ?_, hnonneg, ?_⟩
  · intro ha
    unfold restTimeS
    by_cases h : active < total
    · rw [if_pos ⟨ha, h⟩, max_eq_right (by linarith)]
    · rw [if_neg (by tauto), max_eq_left (by linarith)]
  · intro ha
    unfold restTimeS
    rw [if_neg (by rintro ⟨h1, _⟩; linarith)]
  · unfold restTimeStr
    by_cases hr : 0 < restTimeS total active
    · rw [if_pos hr]
      constructor
      · intro heq
        by_contra h1
        exact formatTime_ne_zeroString _ (by linarith) heq
      · intro hlt
        exact formatTime_lt_one _ (le_of_lt hr) hlt
    · rw [if_neg hr]
      have : restTimeS total active = 0 := le_antisymm (by linarith) hnonneg
      constructor
      · intro _
        rw [this]
        norm_num
      · intro _
        rfl

/-- Witness for C4 (amended) at `total = 100`, `active = 30`: rest time is
`max(0, 70) = 70`. -/
theorem rest_time_amended_witness :
    restTimeS 100 30 = max 0 (100 - 30) :=
  (rest_time_amended 100 30).1 (by norm_num)

/-- C9: strokes-per-length is `round(total_strokes / num_lengths, 1)` when
both session counts are positive, and the summary field is entirely absent
when `num_lengths = 0`, even with positive strokes. -/
theorem strokes_per_length_rule (session : Session) (laps : List Lap)
    (lengths : List Length) (records : List TrackPoint) :
    (0 < session.num_lengths → 0 < session.total_strokes →
      (generateSummary session laps lengths records).strokes_per_length =
        some (pyRound1 ((session.total_strokes : ℚ) / (session.num_lengths : ℚ)))) ∧
    (session.num_lengths = 0 →
      (generateSummary session laps lengths records).strokes_per_length = none) := by
  constructor
  · intro h1 h2
    simp only [generateSummary]
    rw [if_pos ⟨h1, h2⟩]
  · intro h1
    simp only [generateSummary]
    rw [if_neg (by rw [h1]; rintro ⟨h2, _⟩; exact absurd h2 (lt_irrefl 0))]

/-- Witness for C9: 7 strokes over 3 lengths gives `round(7/3, 1) = 2.3`;
with `num_lengths = 0` the field is absent. -/
theorem strokes_per_length_rule_witness :
    (generateSummary { num_lengths := 3, total_strokes := 7 } [] [] []).strokes_per_length =
      some (pyRound1 ((7 : ℚ) / 3)) ∧
    (generateSummary { total_strokes := 7 } [] [] []).strokes_per_length = none ∧
    pyRound1 ((7 : ℚ) / 3) = 23 / 10 :=
  ⟨(strokes_per_length_rule { num_lengths := 3, total_strokes := 7 } [] [] []).1
      (by norm_num) (by norm_num),
   (strokes_per_length_rule { total_strokes := 7 } [] [] []).2 rfl,
   by norm_num [pyRound1, pyRoundInt]⟩

theorem lapPaces_true (laps : List Lap) :
    lapPaces true laps = laps.filterMap (fun lap => lap.pace_per_100yd.bind parsePaceMMSS) := rfl

theorem lapPaces_false (laps : List Lap) :
    lapPaces false laps = laps.filterMap (fun lap => lap.pace_per_100m.bind parsePaceMMSS) := rfl

theorem lapAveragedPaces_yd (laps : List Lap) (m yd : Option String)
    (hlaps : laps ≠ []) (hps : lapPaces true laps ≠ []) :
    lapAveragedPaces true laps m yd =
      (m, some (formatTime (meanSeconds (lapPaces true laps)))) := by
  unfold lapAveragedPaces
  rw [if_neg (by simpa using hlaps), if_pos rfl]
  rw [lapPaces_true] at hps
  rw [if_neg (by simpa using hps)]
  rfl

theorem lapAveragedPaces_m (laps : List Lap) (m yd : Option String)
    (hlaps : laps ≠ []) (hps : lapPaces false laps ≠ []) :
    lapAveragedPaces false laps m yd =
      (some (formatTime (meanSeconds (lapPaces false laps))), yd) := by
  unfold lapAveragedPaces
  rw [if_neg (by simpa using hlaps)]
  rw [if_neg (by simp)]
  rw [lapPaces_false] at hps
  rw [if_neg (by simpa using hps)]
  rfl

theorem paceDistanceFallback_of_some (d sw : ℚ) (m yd : Option String)
    (h : m ≠ none) : paceDistanceFallback d sw m yd = (m, yd) := by
  unfold paceDistanceFallback
  rw [if_neg (by rintro ⟨h1, _⟩; exact h h1)]

theorem paceDistanceFallback_snd_of_some (d sw : ℚ) (m yd : Option String)
    (h : yd ≠ none) : (paceDistanceFallback d sw m yd).2 = yd := by
  unfold paceDistanceFallback
  split_ifs with hc
  · simp only [if_neg h]
  · rfl

/-- C2: with at least one lap and at least one lap pace string for the
classified unit that is present and parses as `MM:SS`, the summary's average
pace for that unit (and the headline `avg_pace`) is the formatted arithmetic
mean, in seconds, of exactly the parsed lap paces; unparsable or absent lap
paces are excluded rather than counted as zero. -/
theorem lap_pace_averaging (session : Session) (laps : List Lap)
    (lengths : List Length) (records : List TrackPoint)
    (hlaps : laps ≠ []) (hps : lapPaces session.is_yard_pool laps ≠ []) :
    (if session.is_yard_pool
      then (generateSummary session laps lengths records).avg_pace_100yd
      else (generateSummary session laps lengths records).avg_pace_100m)
      = formatTime (meanSeconds (lapPaces session.is_yard_pool laps)) ∧
    (generateSummary session laps lengths records).avg_pace =
      some (formatTime (meanSeconds (lapPaces session.is_yard_pool laps))) := by
  by_cases hu : session.is_yard_pool
  · rw [hu] at hps ⊢
    simp only [generateSummary, hu, if_true]
    rw [lapAveragedPaces_yd laps _ _ hlaps hps]
    constructor
    · simp [paceDistanceFallback_snd_of_some, Option.getD]
    · rw [paceDistanceFallback_snd_of_some _ _ _ _ (by simp)]
  · rw [Bool.not_eq_true] at hu
    rw [hu] at hps ⊢
    simp only [generateSummary, hu, if_false, Bool.false_eq_true]
    rw [lapAveragedPaces_m laps _ _ hlaps hps]
    rw [paceDistanceFallback_of_some _ _ _ _ (by simp)]
    constructor
    · rfl
    · rfl

theorem generateSummary_avg_pace_100m (session : Session) (laps : List Lap)
    (lengths : List Length) (records : List TrackPoint) :
    (generateSummary session laps lengths records).avg_pace_100m =
      (paceDistanceFallback session.total_distance_m
        (swimTimeS lengths session.num_active_lengths session.total_timer_time_s
          session.total_elapsed_time_s)
        (lapAveragedPaces session.is_yard_pool laps session.avgPace100m session.avgPace100yd).1
        (lapAveragedPaces session.is_yard_pool laps session.avgPace100m
          session.avgPace100yd).2).1.getD "N/A" := by
  simp only [generateSummary]

theorem generateSummary_avg_pace_100yd (session : Session) (laps : List Lap)
    (lengths : List Length) (records : List TrackPoint) :
    (generateSummary session laps lengths records).avg_pace_100yd =
      (paceDistanceFallback session.total_distance_m
        (swimTimeS lengths session.num_active_lengths session.total_timer_time_s
          session.total_elapsed_time_s)
        (lapAveragedPaces session.is_yard_pool laps session.avgPace100m session.avgPace100yd).1
        (lapAveragedPaces session.is_yard_pool laps session.avgPace100m
          session.avgPace100yd).2).2.getD "N/A" := by
  simp only [generateSummary]

theorem generateSummary_avg_pace (session : Session) (laps : List Lap)
    (lengths : List Length) (records : List TrackPoint) :
    (generateSummary session laps lengths records).avg_pace =
      (if session.is_yard_pool then
        (paceDistanceFallback session.total_distance_m
          (swimTimeS lengths session.num_active_lengths session.total_timer_time_s
            session.total_elapsed_time_s)
          (lapAveragedPaces session.is_yard_pool laps session.avgPace100m session.avgPace100yd).1
          (lapAveragedPaces session.is_yard_pool laps session.avgPace100m
            session.avgPace100yd).2).2
      else some ((paceDistanceFallback session.total_distance_m
          (swimTimeS lengths session.num_active_lengths session.total_timer_time_s
            session.total_elapsed_time_s)
          (lapAveragedPaces session.is_yard_pool laps session.avgPace100m session.avgPace100yd).1
          (lapAveragedPaces session.is_yard_pool laps session.avgPace100m
            session.avgPace100yd).2).1.getD "N/A")) := by
  simp only [generateSummary]

theorem lapAveragedPaces_nil (u : Bool) (m yd : Option String) :
    lapAveragedPaces u [] m yd = (m, yd) := by
  simp [lapAveragedPaces]

theorem activeTimeS_nil (numActive : ℕ) (timer : ℚ) :
    activeTimeS [] numActive timer = timer := by
  norm_num [activeTimeS, activeTimeRaw]

/-- C5: on a yard pool with no yard pace available from any source, the
headline `avg_pace` is Python `None` (JSON null), not the `'N/A'` the spec
requires: the `'N/A'` default sits only on the meter side of the conditional
`avg_pace_100yd if is_yard_pool else avg_pace_100m if avg_pace_100m else
'N/A'`.  The separately retained `avg_pace_100yd` field does get `'N/A'`. -/
theorem avg_pace_yard_none_bug :
    (generateSummary
        { pool_length_m := 22.86, pool_length_yd := 25, is_yard_pool := true }
        [] [] []).avg_pace = none ∧
    (generateSummary
        { pool_length_m := 22.86, pool_length_yd := 25, is_yard_pool := true }
        [] [] []).avg_pace_100yd = "N/A" := by
  constructor
  · rw [generateSummary_avg_pace]
    simp only [lapAveragedPaces_nil]
    rw [if_pos trivial]
    show (paceDistanceFallback 0 _ none none).2 = none
    unfold paceDistanceFallback
    rw [if_neg (by rintro ⟨-, h2, -⟩; exact absurd h2 (by norm_num))]
  · rw [generateSummary_avg_pace_100yd]
    simp only [lapAveragedPaces_nil]
    show ((paceDistanceFallback 0 _ none none).2.getD "N/A") = "N/A"
    unfold paceDistanceFallback
    rw [if_neg (by rintro ⟨-, h2, -⟩; exact absurd h2 (by norm_num))]
    rfl

theorem avgPace100yd_none_of_100m_none (s : Session)
    (h : s.avgPace100m = none) : s.avgPace100yd = none := by
  unfold Session.avgPace100m at h
  unfold Session.avgPace100yd
  cases hs : s.avg_speed_mps with
  | none => rfl
  | some v =>
      rw [hs] at h
      simp only [Option.some_bind] at h ⊢
      unfold calculatePace at h
      unfold calculatePacePer100yd
      by_cases hv : v = 0
      · rw [if_pos hv]
      · rw [if_neg hv] at h
        exact absurd h (by simp)

/-- C6 counterexample: with no laps, positive distance and positive swim time
but an `avg_speed` of 1 m/s present in the session, the summary keeps the
session speed-derived pace `01:40` instead of deriving
`total_distance_m / swim_time_s` (which would give `02:00`). -/
theorem distance_pace_counterexample :
    (generateSummary
        { total_distance_m := 1000, total_elapsed_time_s := 1200, avg_speed_mps := some 1 }
        [] [] []).avg_pace_100m = "01:40" ∧
    formatTime (100 / ((1000 : ℚ) / 1200)) = "02:00" ∧
    (generateSummary
        { total_distance_m := 1000, total_elapsed_time_s := 1200, avg_speed_mps := some 1 }
        [] [] []).avg_pace_100m ≠
      formatTime (100 / ((1000 : ℚ) / 1200)) := by
  have hf : formatTime (100 / ((1000 : ℚ) / 1200)) = "02:00" := by
    have h120 : (100 : ℚ) / ((1000 : ℚ) / 1200) = 120 := by norm_num
    rw [h120]
    simp only [formatTime]
    norm_num
    decide
  have hpace :
      ({ total_distance_m := 1000, total_elapsed_time_s := 1200, avg_speed_mps := some 1 } :
        Session).avgPace100m = some (formatTime 100) := by
    unfold Session.avgPace100m
    simp only [Option.some_bind]
    unfold calculatePace
    rw [if_neg (by norm_num)]
    norm_num
  have hmain : (generateSummary
      { total_distance_m := 1000, total_elapsed_time_s := 1200, avg_speed_mps := some 1 }
      [] [] []).avg_pace_100m = formatTime 100 := by
    rw [generateSummary_avg_pace_100m]
    simp only [lapAveragedPaces_nil]
    rw [paceDistanceFallback_of_some _ _ _ _ (by rw [hpace]; simp)]
    rw [hpace]
    rfl
  have h100 : formatTime (100 : ℚ) = "01:40" := by
    simp only [formatTime]
    norm_num
    decide
  refine ⟨by rw [hmain, h100], hf, ?_⟩
  rw [hmain, h100, hf]
  decide

/-- Witness for C2: a meter pool with lap paces `01:30` and `01:40` averages
to `01:35`. -/
theorem lap_pace_averaging_witness :
    (generateSummary {}
      [{ pace_per_100m := some "01:30" }, { pace_per_100m := some "01:40" }]
      [] []).avg_pace_100m = "01:35" := by
  have h := (lap_pace_averaging {}
    [{ pace_per_100m := some "01:30" }, { pace_per_100m := some "01:40" }]
    [] [] (by simp) (by decide)).1
  have hu : ({} : Session).is_yard_pool = false := rfl
  rw [hu] at h
  simp only [Bool.false_eq_true, if_false] at h
  rw [h]
  have hlp : lapPaces false
      [{ pace_per_100m := some "01:30" }, { pace_per_100m := some "01:40" }] = [90, 100] := by
    decide
  rw [hlp]
  have hm : meanSeconds [90, 100] = 95 := by
    norm_num [meanSeconds]
  rw [hm]
  simp only [formatTime]
  norm_num
  decide

/-- C6 (amended): when no laps exist, the session carries no
`avg_speed`-derived pace, and both the total distance and the Step 2 swim
time are positive, the average pace is derived from
`speed = total_distance_m / swim_time_s` for both the meter and the yard
representation. -/
theorem distance_pace_amended (session : Session) (lengths : List Length)
    (records : List TrackPoint)
    (hm : session.avgPace100m = none)
    (hd : 0 < session.total_distance_m)
    (hsw : 0 < swimTimeS lengths session.num_active_lengths session.total_timer_time_s
      session.total_elapsed_time_s) :
    (generateSummary session [] lengths records).avg_pace_100m =
      formatTime (100 / (session.total_distance_m /
        swimTimeS lengths session.num_active_lengths session.total_timer_time_s
          session.total_elapsed_time_s)) ∧
    (generateSummary session [] lengths records).avg_pace_100yd =
      formatTime (100 / (session.total_distance_m /
        swimTimeS lengths session.num_active_lengths session.total_timer_time_s
          session.total_elapsed_time_s * yardFactor)) := by
  have hyd := avgPace100yd_none_of_100m_none session hm
  have hspeed : session.total_distance_m /
      swimTimeS lengths session.num_active_lengths session.total_timer_time_s
        session.total_elapsed_time_s ≠ 0 := by
    positivity
  have hfall : paceDistanceFallback session.total_distance_m
      (swimTimeS lengths session.num_active_lengths session.total_timer_time_s
        session.total_elapsed_time_s) session.avgPace100m session.avgPace100yd =
      (some (formatTime (100 / (session.total_distance_m /
          swimTimeS lengths session.num_active_lengths session.total_timer_time_s
            session.total_elapsed_time_s))),
       some (formatTime (100 / (session.total_distance_m /
          swimTimeS lengths session.num_active_lengths session.total_timer_time_s
            session.total_elapsed_time_s * yardFactor)))) := by
    unfold paceDistanceFallback
    rw [if_pos ⟨hm, hd, hsw⟩, hyd]
    dsimp only
    rw [if_pos (rfl : (none : Option String) = none)]
    unfold calculatePace calculatePacePer100yd
    rw [if_neg hspeed]
    rw [if_neg hspeed]
  constructor
  · rw [generateSummary_avg_pace_100m]
    simp only [lapAveragedPaces_nil]
    rw [hfall]
    rfl
  · rw [generateSummary_avg_pace_100yd]
    simp only [lapAveragedPaces_nil]
    rw [hfall]
    rfl

/-- Witness for C6 (amended): the spec scenario `total_distance_m = 1000`,
`total_elapsed_time_s = 1200`, no laps or lengths, no session `avg_speed`:
the pace is `100 / (1000/1200) = 120 s`, formatted `"02:00"`. -/
theorem distance_pace_amended_witness :
    (generateSummary { total_distance_m := 1000, total_elapsed_time_s := 1200 }
      [] [] []).avg_pace_100m = "02:00" := by
  have hsw : swimTimeS [] 0 0 1200 = 1200 := by
    norm_num [swimTimeS, activeTimeS_nil]
  have h := (distance_pace_amended
    { total_distance_m := 1000, total_elapsed_time_s := 1200 } [] []
    rfl (by norm_num) (by rw [show ({ total_distance_m := 1000, total_elapsed_time_s := 1200 } :
      Session).total_elapsed_time_s = 1200 from rfl] at *; rw [hsw]; norm_num)).1
  rw [h]
  have harg : (100 : ℚ) / (({ total_distance_m := 1000, total_elapsed_time_s := 1200 } :
      Session).total_distance_m / swimTimeS [] 0 0 1200) = 120 := by
    rw [hsw]
    norm_num
  rw [show swimTimeS []
      ({ total_distance_m := 1000, total_elapsed_time_s := 1200 } : Session).num_active_lengths
      ({ total_distance_m := 1000, total_elapsed_time_s := 1200 } : Session).total_timer_time_s
      ({ total_distance_m := 1000, total_elapsed_time_s := 1200 } : Session).total_elapsed_time_s =
      swimTimeS [] 0 0 1200 from rfl]
  rw [harg]
  simp only [formatTime]
  norm_num
  decide

theorem lapAveragedPaces_of_no_parses (u : Bool) (laps : List Lap)
    (m yd : Option String) (h : lapPaces u laps = []) :
    lapAveragedPaces u laps m yd = (m, yd) := by
  cases u with
  | false =>
      rw [lapPaces_false] at h
      unfold lapAveragedPaces
      by_cases hl : laps.isEmpty
      · rw [if_pos hl]
      · rw [if_neg hl, if_neg (by simp)]
        dsimp only
        rw [if_pos (by simp [h])]
  | true =>
      rw [lapPaces_true] at h
      unfold lapAveragedPaces
      by_cases hl : laps.isEmpty
      · rw [if_pos hl]
      · rw [if_neg hl, if_pos rfl]
        dsimp only
        rw [if_pos (by simp [h])]

/-- C10: the lap-averaging step parses only strings of exactly two
colon-separated parts, so the `H:MM:SS` output of the formatter for any time
of 3600 s or more is silently rejected; consequently, when every present lap
pace string for either unit is the formatter's output on some time
`≥ 3600 s`, no lap pace is collected and the summary's pace fields are
exactly those computed with no laps at all (the next fallback decides). -/
theorem hmmss_lap_exclusion (session : Session) (laps : List Lap)
    (lengths : List Length) (records : List TrackPoint)
    (hm : ∀ lap ∈ laps, ∀ str, lap.pace_per_100m = some str →
      ∃ t : ℚ, 3600 ≤ t ∧ str = formatTime t)
    (hyd : ∀ lap ∈ laps, ∀ str, lap.pace_per_100yd = some str →
      ∃ t : ℚ, 3600 ≤ t ∧ str = formatTime t) :
    (∀ t : ℚ, 3600 ≤ t → parsePaceMMSS (formatTime t) = none) ∧
    lapPaces session.is_yard_pool laps = [] ∧
    (generateSummary session laps lengths records).avg_pace_100m =
      (generateSummary session [] lengths records).avg_pace_100m ∧
    (generateSummary session laps lengths records).avg_pace_100yd =
      (generateSummary session [] lengths records).avg_pace_100yd ∧
    (generateSummary session laps lengths records).avg_pace =
      (generateSummary session [] lengths records).avg_pace := by
  have hnil : lapPaces session.is_yard_pool laps = [] := by
    unfold lapPaces
    rw [List.filterMap_eq_nil]
    intro lap hlap
    cases hps : (if session.is_yard_pool then lap.pace_per_100yd else lap.pace_per_100m) with
    | none => rfl
    | some str =>
        have hex : ∃ t : ℚ, 3600 ≤ t ∧ str = formatTime t := by
          by_cases hu : session.is_yard_pool
          · rw [if_pos hu] at hps
            exact hyd lap hlap str hps
          · rw [if_neg hu] at hps
            exact hm lap hlap str hps
        obtain ⟨t, ht, rfl⟩ := hex
        simp [parse_formatTime_ge t ht]
  refine ⟨fun t ht => parse_formatTime_ge t ht, hnil, ?_, ?_, ?_⟩
  · rw [generateSummary_avg_pace_100m, generateSummary_avg_pace_100m,
      lapAveragedPaces_of_no_parses _ _ _ _ hnil, lapAveragedPaces_nil]
  · rw [generateSummary_avg_pace_100yd, generateSummary_avg_pace_100yd,
      lapAveragedPaces_of_no_parses _ _ _ _ hnil, lapAveragedPaces_nil]
  · rw [generateSummary_avg_pace, generateSummary_avg_pace,
      lapAveragedPaces_of_no_parses _ _ _ _ hnil, lapAveragedPaces_nil]

/-- Witness for C10: a single lap carrying the pace string `1:00:00`
(one hour, formatted `H:MM:SS`) contributes nothing; the meter pace equals
the no-laps result. -/
theorem hmmss_lap_exclusion_witness :
    lapPaces false [{ pace_per_100m := some "1:00:00" }] = [] ∧
    (generateSummary {} [{ pace_per_100m := some "1:00:00" }] [] []).avg_pace_100m =
      (generateSummary {} [] [] []).avg_pace_100m := by
  have hfmt : formatTime (3600 : ℚ) = "1:00:00" := by
    simp only [formatTime]
    norm_num
    decide
  have h := hmmss_lap_exclusion {} [{ pace_per_100m := some "1:00:00" }] [] []
    (by
      intro lap hlap str hstr
      have hl : lap = { pace_per_100m := some "1:00:00" } := by simpa using hlap
      subst hl
      have hs : some "1:00:00" = some str := hstr
      refine ⟨3600, by norm_num, ?_⟩
      rw [← Option.some.inj hs, hfmt])
    (by
      intro lap hlap str hstr
      have hl : lap = { pace_per_100m := some "1:00:00" } := by simpa using hlap
      subst hl
      exact absurd hstr (by simp))
  exact ⟨h.2.1, h.2.2.1⟩

/-- C8: for every positive speed, re-parsing the returned pace string as
`MM:SS` gives a seconds value within 1 of `100 / speed` (floor truncation),
and a zero speed yields the no-pace sentinel rather than a division by
zero. -/
theorem pace_roundtrip :
    (∀ speed : ℚ, 0 < speed → ∀ str, calculatePace speed = some str →
      ∀ p : ℤ, parsePaceMMSS str = some p → |(p : ℚ) - 100 / speed| ≤ 1) ∧
    calculatePace 0 = none := by
  constructor
  · intro speed hpos str hstr p hp
    have hne : speed ≠ 0 := ne_of_gt hpos
    unfold calculatePace at hstr
    rw [if_neg hne] at hstr
    have hstr2 : str = formatTime (100 / speed) := (Option.some.inj hstr).symm
    subst hstr2
    have htpos : 0 < (100 : ℚ) / speed := by positivity
    rcases lt_or_ge ((100 : ℚ) / speed) 3600 with hlt | hge
    · have hpl := parse_formatTime_lt ((100 : ℚ) / speed) (le_of_lt htpos) hlt
      rw [hpl] at hp
      have hpe : p = ⌊(100 : ℚ) / speed⌋ := (Option.some.inj hp).symm
      subst hpe
      rw [abs_le]
      constructor
      · linarith [Int.lt_floor_add_one ((100 : ℚ) / speed)]
      · linarith [Int.floor_le ((100 : ℚ) / speed)]
    · rw [parse_formatTime_ge ((100 : ℚ) / speed) hge] at hp
      exact absurd hp (by simp)
  · norm_num [calculatePace]

/-- Witness for C8 at `speed = 5/6` m/s: the pace string is `02:00`, parsing
back gives 120 s, and `|120 - 100/(5/6)| = 0 ≤ 1`. -/
theorem pace_roundtrip_witness :
    |((120 : ℤ) : ℚ) - 100 / ((5 : ℚ) / 6)| ≤ 1 := by
  refine pace_roundtrip.1 ((5 : ℚ) / 6) (by norm_num) "02:00" ?_ 120 (by decide)
  unfold calculatePace
  rw [if_neg (by norm_num)]
  rw [show (100 : ℚ) / ((5 : ℚ) / 6) = 120 by norm_num]
  rw [show formatTime (120 : ℚ) = "02:00" by simp only [formatTime]; norm_num; decide]

theorem collectPace_foldl_eq (get : Workout → String) (ws : List Workout) :
    ∀ init : Option String,
      ws.foldl (fun acc w => if truthyPace (get w) then some (get w) else acc) init =
        ((ws.reverse.find? (fun w => truthyPace (get w))).map get).or init := by
  induction ws with
  | nil => intro init; simp
  | cons w ws ih =>
      intro init
      rw [List.foldl_cons, ih, List.reverse_cons, List.find?_append]
      cases hf : ws.reverse.find? (fun x => truthyPace (get x)) with
      | some v => simp [hf]
      | none =>
          by_cases ht : truthyPace (get w)
          · simp [hf, ht]
          · simp [hf, ht]

/-- The pace-collection loop keeps overwriting, so it returns the pace of
the LAST workout whose pace string passes the truthiness filter. -/
theorem collectPace_eq_last (get : Workout → String) (ws : List Workout) :
    collectPace get ws = (ws.reverse.find? (fun w => truthyPace (get w))).map get := by
  unfold collectPace
  rw [collectPace_foldl_eq]
  cases ws.reverse.find? (fun w => truthyPace (get w)) <;> simp

/-- C7 counterexample: two workouts with zero combined distance/time and
per-100m paces `01:30` then `01:40`: the loop has no `break`, so the
cumulative pace is the LAST non-`'N/A'` value `01:40`, not the first
`01:30` as claimed. -/
theorem cumulative_first_pace_counterexample :
    generateCumulativeData
        [{ summary := { avg_pace_100m := "01:30", avg_pace_100yd := "01:30" } },
          { summary := { avg_pace_100m := "01:40", avg_pace_100yd := "01:40" } }] =
      some (cumulativeCore
        [{ summary := { avg_pace_100m := "01:30", avg_pace_100yd := "01:30" } },
          { summary := { avg_pace_100m := "01:40", avg_pace_100yd := "01:40" } }]) ∧
    (cumulativeCore
        [{ summary := { avg_pace_100m := "01:30", avg_pace_100yd := "01:30" } },
          { summary := { avg_pace_100m := "01:40", avg_pace_100yd := "01:40" } }]).avg_pace_100m =
      some "01:40" ∧
    (cumulativeCore
        [{ summary := { avg_pace_100m := "01:30", avg_pace_100yd := "01:30" } },
          { summary := { avg_pace_100m := "01:40", avg_pace_100yd := "01:40" } }]).avg_pace_100m ≠
      some "01:30" := by
  have hm : (cumulativeCore
      [{ summary := { avg_pace_100m := "01:30", avg_pace_100yd := "01:30" } },
        { summary := { avg_pace_100m := "01:40", avg_pace_100yd := "01:40" } }]).avg_pace_100m =
      some "01:40" := by
    simp only [cumulativeCore]
    rw [if_neg (by norm_num)]
    dsimp only
    rw [show collectPace (fun w => w.summary.avg_pace_100m)
      [{ summary := { avg_pace_100m := "01:30", avg_pace_100yd := "01:30" } },
        { summary := { avg_pace_100m := "01:40", avg_pace_100yd := "01:40" } }] =
      some "01:40" from by decide]
    rfl
  refine ⟨?_, hm, by rw [hm]; decide⟩
  norm_num [generateCumulativeData]

/-- C7 (amended): for two or more workouts, when the combined time and the
combined distance are both positive the blended pace is recomputed from
combined distance over combined time; otherwise each cumulative pace field
equals the pace string of the LAST workout whose corresponding pace is a
non-empty string other than `'N/A'` (or `'N/A'` when no workout has one). -/
theorem cumulative_pace_amended (ws : List Workout) (h2 : 2 ≤ ws.length) :
    generateCumulativeData ws = some (cumulativeCore ws) ∧
    ((0 < (ws.map (fun w => w.total_elapsed_time_s)).sum ∧
        0 < (ws.map (fun w => w.summary.total_distance_m)).sum) →
      (cumulativeCore ws).avg_pace_100m =
        calculatePaceFromSpeed ((ws.map (fun w => w.summary.total_distance_m)).sum /
          (ws.map (fun w => w.total_elapsed_time_s)).sum) ∧
      (cumulativeCore ws).avg_pace_100yd =
        calculatePaceFromSpeedYd ((ws.map (fun w => w.summary.total_distance_m)).sum /
          (ws.map (fun w => w.total_elapsed_time_s)).sum)) ∧
    (¬(0 < (ws.map (fun w => w.total_elapsed_time_s)).sum ∧
        0 < (ws.map (fun w => w.summary.total_distance_m)).sum) →
      (cumulativeCore ws).avg_pace_100m =
        some (((ws.reverse.find? (fun w => truthyPace w.summary.avg_pace_100m)).map
          (fun w => w.summary.avg_pace_100m)).getD "N/A") ∧
      (cumulativeCore ws).avg_pace_100yd =
        some (((ws.reverse.find? (fun w => truthyPace w.summary.avg_pace_100yd)).map
          (fun w => w.summary.avg_pace_100yd)).getD "N/A")) := by
  refine ⟨?_, ?_, ?_⟩
  · unfold generateCumulativeData
    rw [if_neg (by omega)]
  · intro h
    constructor
    · simp only [cumulativeCore]
      rw [if_pos h]
    · simp only [cumulativeCore]
      rw [if_pos h]
  · intro h
    constructor
    · simp only [cumulativeCore]
      rw [if_neg h]
      dsimp only
      rw [collectPace_eq_last]
    · simp only [cumulativeCore]
      rw [if_neg h]
      dsimp only
      rw [collectPace_eq_last]

/-- Witness for C7 (amended): workouts of 1000 m in 600 s and 500 m in
600 s blend to 1500 m in 1200 s, i.e. 1.25 m/s, pace `01:20` per 100 m. -/
theorem cumulative_pace_amended_witness :
    (cumulativeCore
      [{ summary := { total_distance_m := 1000 }, total_elapsed_time_s := 600 },
        { summary := { total_distance_m := 500 }, total_elapsed_time_s := 600 }]).avg_pace_100m =
      some "01:20" := by
  have h := (cumulative_pace_amended
    [{ summary := { total_distance_m := 1000 }, total_elapsed_time_s := 600 },
      { summary := { total_distance_m := 500 }, total_elapsed_time_s := 600 }]
    (by norm_num)).2.1 (by norm_num)
  have hpace : ∀ q : ℚ, q = 5 / 4 → calculatePaceFromSpeed q = some "01:20" := by
    intro q hq
    subst hq
    unfold calculatePaceFromSpeed
    rw [if_neg (by norm_num)]
    rw [show (100 : ℚ) / (5 / 4) = 80 by norm_num]
    rw [show secondsToPace (80 : ℚ) = "01:20" from by
      unfold secondsToPace
      norm_num
      decide]
  rw [h.1]
  apply hpace
  norm_num
